import Mathlib

/-!
# Verification of matplotview's view-axes core (`matplotview/_view_axes.py`)

This file gives a shallow embedding of the rendering-remap pipeline of the
matplotview repository and settles the frozen claims about it.

Modelled source: `src/matplotview/_view_axes.py`.

Conventions of the embedding:
* matplotlib `Bbox` objects are records of four rationals (the two stored
  corner points `(x0, y0)` and `(x1, y1)`; `xmin`, `xmax`, `ymin`, `ymax`
  are the derived min/max, exactly as in `matplotlib.transforms.Bbox`).
* Coordinate transforms (`transData` and friends) are opaque functions
  on pairs of rationals; the code only ever applies them to points.
* Renderers are opaque identifiers (`Nat`); artists referenced by an axes
  are opaque identifiers as well.  The drawing behaviour of a wrapped
  artist (whether `get_window_extent` and `draw` succeed or raise, under a
  given renderer) is a record of functions, so that exceptional control
  flow is explicit (`Except String`).
* Stateful Python methods become state-passing Lean functions that return
  the final state of every object they mutate together with an explicit
  error component (`Option String`) standing for a propagated exception,
  and, where the claims need it, a trace of the observable effects.
-/

namespace Matplotview

/-- A matplotlib `Bbox`: two stored corner points `(x0, y0)`, `(x1, y1)`.
The points are not required to be ordered; `xmin`/`xmax`/`ymin`/`ymax`
are derived, exactly as in `matplotlib.transforms.Bbox`. -/
structure Bbox where
  x0 : ℚ
  y0 : ℚ
  x1 : ℚ
  y1 : ℚ
deriving DecidableEq, Repr

namespace Bbox

/-- `Bbox.xmin`: the smaller of the two stored x coordinates. -/
def xmin (b : Bbox) : ℚ := min b.x0 b.x1

/-- `Bbox.xmax`: the larger of the two stored x coordinates. -/
def xmax (b : Bbox) : ℚ := max b.x0 b.x1

/-- `Bbox.ymin`: the smaller of the two stored y coordinates. -/
def ymin (b : Bbox) : ℚ := min b.y0 b.y1

/-- `Bbox.ymax`: the larger of the two stored y coordinates. -/
def ymax (b : Bbox) : ℚ := max b.y0 b.y1

/-- `Bbox.from_extents(x0, y0, x1, y1)`: the box with stored points
`(x0, y0)` and `(x1, y1)`. -/
def from_extents (x0 y0 x1 y1 : ℚ) : Bbox := ⟨x0, y0, x1, y1⟩

/-- `Bbox.intersection(bbox1, bbox2)` from `matplotlib.transforms`:
returns the intersection of the two boxes if they intersect or touch
(non-strict inequalities), and `None` otherwise. -/
def intersection (b1 b2 : Bbox) : Option Bbox :=
  let ix0 := max b1.xmin b2.xmin
  let ix1 := min b1.xmax b2.xmax
  let iy0 := max b1.ymin b2.ymin
  let iy1 := min b1.ymax b2.ymax
  if ix0 ≤ ix1 ∧ iy0 ≤ iy1 then some ⟨ix0, iy0, ix1, iy1⟩ else none

/-- `Bbox.transformed(transform)` from `matplotlib.transforms`: transforms
the three corners `ll = (x0, y0)`, `ul = (x0, y1)`, `lr = (x1, y0)` and
rebuilds the box from `ll` and `(lr.x, ul.y)`. -/
def transformed (b : Bbox) (t : ℚ × ℚ → ℚ × ℚ) : Bbox :=
  let ll := t (b.x0, b.y0)
  let ul := t (b.x0, b.y1)
  let lr := t (b.x1, b.y0)
  ⟨ll.1, ll.2, lr.1, ul.2⟩

end Bbox

/-- The mutable drawing-relevant state of a wrapped artist: its clip box
(`Artist.get_clip_box` / `set_clip_box`, `None` allowed). -/
structure ArtistState where
  clip_box : Option Bbox
deriving DecidableEq, Repr

/-- The behaviour of a wrapped artist, as a function of the renderer it is
given: `get_window_extent(renderer)` may return a box or raise, and
`draw(renderer)` may succeed or raise. -/
structure ArtistBehavior where
  window_extent : ℕ → Except String Bbox
  draw_result : ℕ → Except String Unit

/-- A `BoundRendererArtist`: the wrapped artist (its behaviour), the bound
substitute renderer `self._renderer`, and the clip region
`self._clip_box`. -/
structure BoundRendererArtist where
  artist : ArtistBehavior
  renderer : ℕ
  clip_box : Bbox

/-- Observable effects of one `BoundRendererArtist.draw` call on the
wrapped artist: clip-box writes (`set_clip_box`), and delegated
`artist.draw(r)` calls. -/
inductive Ev where
  | setClip (b : Option Bbox)
  | drawCall (r : ℕ)
deriving DecidableEq, Repr

/-- Result of one `BoundRendererArtist.draw` call: the wrapped artist's
final clip box, the ordered trace of effects on the wrapped artist, and
the exception (if any) that propagated out of the call. -/
structure DrawResult where
  final_clip : Option Bbox
  trace : List Ev
  error : Option String
deriving DecidableEq, Repr

/-- `BoundRendererArtist.draw(self, renderer)` (lines 28-41 of
`_view_axes.py`), translated statement by statement:

* `clip_box_orig = self._artist.get_clip_box()`
* `full_extents = self._artist.get_window_extent(self._renderer)` — may
  raise, in which case the clip box was not yet touched;
* `self._artist.set_clip_box(full_extents)`
* `if Bbox.intersection(full_extents, self._clip_box) is not None:`
  `self._artist.draw(self._renderer)` — may raise; there is no
  `try`/`finally`, so in that case the final `set_clip_box(clip_box_orig)`
  is never executed;
* `self._artist.set_clip_box(clip_box_orig)`.

The `renderer` parameter passed in by the host draw loop appears in the
signature but is referenced nowhere in the body. -/
def BoundRendererArtist.draw (b : BoundRendererArtist) (st : ArtistState)
    (renderer : ℕ) : DrawResult :=
  let clip_box_orig := st.clip_box
  match b.artist.window_extent b.renderer with
  | .error e => { final_clip := clip_box_orig, trace := [], error := some e }
  | .ok full_extents =>
    if (Bbox.intersection full_extents b.clip_box).isSome then
      match b.artist.draw_result b.renderer with
      | .error e =>
          { final_clip := some full_extents
            trace := [Ev.setClip (some full_extents), Ev.drawCall b.renderer]
            error := some e }
      | .ok _ =>
          { final_clip := clip_box_orig
            trace := [Ev.setClip (some full_extents), Ev.drawCall b.renderer,
                      Ev.setClip clip_box_orig]
            error := none }
    else
      { final_clip := clip_box_orig
        trace := [Ev.setClip (some full_extents), Ev.setClip clip_box_orig]
        error := none }

/-! ## The view axes (`ViewAxesImpl`) -/

/-- The data of the source axes (`self.__view_axes`) that the view-axes
code reads: its artist children `_children`, its nested child axes
`child_axes` (both as opaque artist identifiers), its data-to-display
transform `transData`, and its own current view limits (used only to state
that binding a view does not copy them). -/
structure SourceAxes where
  children : List ℕ
  child_axes : List ℕ
  transData : ℚ × ℚ → ℚ × ℚ
  xlim : ℚ × ℚ
  ylim : ℚ × ℚ

/-- The state of an axes object, as far as `ViewAxesImpl` touches it.
Base-axes fields: the object's identity `self_id` (for the `a is not self`
identity test), its class tag, its native children, its view limits
(`get_xlim` / `get_ylim`), and its `transData`.  View-specific fields set
by `_init_vars`: the mirrored source `__view_axes`, `__image_interpolation`,
`_render_depth`, `__scale_lines` and the transient `__renderer` (before
`_init_vars` runs the view fields model the attributes' absence). -/
structure AxesObj where
  cls : String
  self_id : ℕ
  native_children : List ℕ
  xlim : ℚ × ℚ
  ylim : ℚ × ℚ
  transData : ℚ × ℚ → ℚ × ℚ
  view_axes : SourceAxes
  image_interpolation : String
  render_depth : ℕ
  scale_lines : Bool
  renderer : Option ℕ

namespace ViewAxesImpl

/-- `ViewAxesImpl.MAX_RENDER_DEPTH` (line 70): the number of allowed
recursions in the draw method. -/
def MAX_RENDER_DEPTH : ℕ := 5

/-- `ViewAxesImpl._init_vars(self, axes_to_view, image_interpolation="nearest")`
(lines 113-122): binds the source, stores the interpolation mode, resets
`_render_depth` to 0, sets `__scale_lines` to `True` and `__renderer` to
`None`.  A caller omitting `image_interpolation` is modelled by passing
`none`, which Python's default argument resolves to `"nearest"`. -/
def init_vars (a : AxesObj) (axes_to_view : SourceAxes)
    (image_interpolation : Option String) : AxesObj :=
  { a with
    view_axes := axes_to_view
    image_interpolation := image_interpolation.getD "nearest"
    render_depth := 0
    scale_lines := true
    renderer := none }

/-- `ViewAxesImpl.__init__(self, axes_to_view, *args, image_interpolation="nearest",
**kwargs)` (lines 72-111): `super().__init__(axes_to_view.figure, ...)` builds a
fresh base axes (modelled by the `base` argument, whose view limits are the
base-class defaults, independent of the source's), then `_init_vars` runs. -/
def ctor (base : AxesObj) (axes_to_view : SourceAxes)
    (image_interpolation : Option String) : AxesObj :=
  init_vars { base with cls := "ViewAxes" } axes_to_view image_interpolation

/-- `ViewAxesImpl.from_axes(cls, axes, axes_to_view, image_interpolation="nearest")`
(lines 195-204): mutates `axes.__class__` to the view class, runs
`_init_vars` on the very same object, and returns it.  In the functional
embedding "the same object" is rendered as: every field not written by the
class change or by `_init_vars` is preserved. -/
def from_axes (axes : AxesObj) (axes_to_view : SourceAxes)
    (image_interpolation : Option String) : AxesObj :=
  init_vars { axes with cls := "ViewAxes" } axes_to_view image_interpolation

end ViewAxesImpl

/-- The `_TransformRenderer` constructed in `get_children` (lines 130-134),
recorded by its construction arguments: the real renderer, the source's
`transData`, the view's `transData`, the view axes itself (by identity),
the interpolation mode and the line-scaling flag. -/
structure MockRenderer where
  base_renderer : ℕ
  src_transform : ℚ × ℚ → ℚ × ℚ
  dest_transform : ℚ × ℚ → ℚ × ℚ
  dest_axes : ℕ
  interpolation : String
  scale_linewidths : Bool

/-- An entry of the child list returned by `get_children`: either one of
the view's own native children, or a `BoundRendererArtist` proxy wrapping
a source child together with its substitute renderer and clip box. -/
inductive ChildEnt where
  | native (id : ℕ)
  | proxy (artist : ℕ) (mock : MockRenderer) (clip : Bbox)

namespace ViewAxesImpl

/-- The `_TransformRenderer(self.__renderer, self.__view_axes.transData,
self.transData, self, self.__image_interpolation, self.__scale_lines)`
built in `get_children`. -/
def mkMockRenderer (a : AxesObj) (rend : ℕ) : MockRenderer :=
  { base_renderer := rend
    src_transform := a.view_axes.transData
    dest_transform := a.transData
    dest_axes := a.self_id
    interpolation := a.image_interpolation
    scale_linewidths := a.scale_lines }

/-- The clip box handed to every proxy (lines 136-141):
`Bbox.from_extents(x1, y1, x2, y2).transformed(self.__view_axes.transData)`
where `(x1, x2) = self.get_xlim()` and `(y1, y2) = self.get_ylim()`. -/
def viewClipBox (a : AxesObj) : Bbox :=
  (Bbox.from_extents a.xlim.1 a.ylim.1 a.xlim.2 a.ylim.2).transformed
    a.view_axes.transData

/-- `ViewAxesImpl.get_children(self)` (lines 124-152): if `self.__renderer`
is not `None`, the native children are extended with one
`BoundRendererArtist` per element of
`itertools.chain(self.__view_axes._children, self.__view_axes.child_axes)`
that is not `self` itself, each carrying the one `_TransformRenderer` and
the one clip box built above; otherwise just the native children. -/
def get_children (a : AxesObj) : List ChildEnt :=
  match a.renderer with
  | some rend =>
      a.native_children.map ChildEnt.native ++
        ((a.view_axes.children ++ a.view_axes.child_axes).filter
            (fun c => c ≠ a.self_id)).map
          (fun c => ChildEnt.proxy c (mkMockRenderer a rend) (viewClipBox a))
  | none => a.native_children.map ChildEnt.native

/-- `ViewAxesImpl.draw(self, renderer=None)` (lines 154-169) for one call,
with the behaviour of `super().draw(renderer)` supplied as a possibly
raising function of the renderer:

* if `self._render_depth >= self.MAX_RENDER_DEPTH`, return immediately;
* `self._render_depth += 1`; `self.__renderer = renderer`;
* `super().draw(renderer)` — may raise; there is no `try`/`finally`, so a
  raise propagates with the two fields left as just written;
* `self.__renderer = None`; `self._render_depth -= 1`.

Returned: the final axes state, the list of states at which
`super().draw` was invoked (empty or a singleton — this makes the
increment visible), and the propagated exception if any. -/
def draw (superDraw : ℕ → Except String Unit) (renderer : ℕ) (a : AxesObj) :
    AxesObj × List AxesObj × Option String :=
  if MAX_RENDER_DEPTH ≤ a.render_depth then (a, [], none)
  else
    let a1 := { a with render_depth := a.render_depth + 1, renderer := some renderer }
    match superDraw renderer with
    | .error e => (a1, [a1], some e)
    | .ok _ =>
        ({ a1 with render_depth := a1.render_depth - 1, renderer := none }, [a1], none)

end ViewAxesImpl

/-! ## Recursive drawing of a system of mutually-referencing views

For the termination and depth-bound claims the relevant shape of
`ViewAxesImpl.draw` is its recursion structure: a figure holds `n` view
axes; each axes `i` carries its own `_render_depth` counter; drawing axes
`i` first checks `MAX_RENDER_DEPTH <= self._render_depth`, then
increments the counter, then (through `super().draw` → `get_children` →
`BoundRendererArtist.draw` → `artist.draw(mock_renderer)`) draws each
view axes reachable from `i` (the list `viewsOf i` — for the cycle "A
views B and B views A" that is `viewsOf A = [B]`, `viewsOf B = [A]`),
then decrements the counter.  The state is the vector of counters.

The recursion of the Python code is not structurally bounded, so the
embedding takes an explicit fuel argument; `draw_terminates_within_bound`
(claim C2) proves that the fuel `MAX_RENDER_DEPTH * n + 1` is never
exhausted, which is exactly termination of the Python recursion in at
most `MAX_RENDER_DEPTH * n` nested draw calls.  Alongside the final
counter vector, the model returns the largest counter value attained at
any point of the recursion, making "never recurses more than
MAX_RENDER_DEPTH levels deep" directly observable. -/

namespace ViewAxesImpl

variable {n : ℕ}

/-- The largest `_render_depth` counter in a state vector. -/
def maxAll (s : Fin n → ℕ) : ℕ := Finset.univ.sup s

/-- The remaining recursion capacity of a state vector: the sum over all
axes of how far each counter still is from `MAX_RENDER_DEPTH`. -/
def capacity (s : Fin n → ℕ) : ℕ := ∑ j, (MAX_RENDER_DEPTH - s j)

/-- One mutually recursive executor for the draw recursion.  `Sum.inl i`
is a call of `ViewAxesImpl.draw` on axes `i`; `Sum.inr l` is the host
draw loop working through the proxied view children `l` of the axes
currently being drawn.  Returns `none` when the fuel runs out, otherwise
the final counter vector together with the largest counter value attained
at any entered state. -/
def drawRec (viewsOf : Fin n → List (Fin n)) :
    ℕ → (Fin n ⊕ List (Fin n)) → (Fin n → ℕ) → Option ((Fin n → ℕ) × ℕ)
  | _, Sum.inr [], s => some (s, maxAll s)
  | fuel, Sum.inr (c :: cs), s =>
      match drawRec viewsOf fuel (Sum.inl c) s with
      | none => none
      | some (s1, mx1) =>
          match drawRec viewsOf fuel (Sum.inr cs) s1 with
          | none => none
          | some (s2, mx2) => some (s2, max mx1 mx2)
  | 0, Sum.inl i, s =>
      if MAX_RENDER_DEPTH ≤ s i then some (s, maxAll s) else none
  | fuel + 1, Sum.inl i, s =>
      if MAX_RENDER_DEPTH ≤ s i then some (s, maxAll s)
      else
        let s1 := Function.update s i (s i + 1)
        match drawRec viewsOf fuel (Sum.inr (viewsOf i)) s1 with
        | none => none
        | some (s2, mx) =>
            some (Function.update s2 i (s2 i - 1), max (maxAll s1) mx)
termination_by fuel x _ => (fuel, Sum.elim (fun _ => 0) (fun l => l.length + 1) x)

/-- Drawing axes `i` of an `n`-axes system from the all-zeroes counter
state (every axes fresh from `_init_vars`), with fuel
`MAX_RENDER_DEPTH * n + 1`. -/
def drawSystem (viewsOf : Fin n → List (Fin n)) (i : Fin n) :
    Option ((Fin n → ℕ) × ℕ) :=
  drawRec viewsOf (MAX_RENDER_DEPTH * n + 1) (Sum.inl i) (fun _ => 0)

end ViewAxesImpl

/-! ## Python attribute protocol on `BoundRendererArtist`

`BoundRendererArtist.__getattribute__` / `__setattr__` (lines 16-26)
delegate to `super()` — i.e. `object.__getattribute__` /
`object.__setattr__` — and fall back to the wrapped artist when the
`super()` call raises `AttributeError`.  A Python object is modelled as
its instance `__dict__` (an association list, most recent write first);
the attributes contributed by the object's class are a list of names. -/

/-- A Python instance: its `__dict__`. -/
structure PyObj where
  dict : List (String × ℕ)
deriving DecidableEq, Repr

/-- Association-list lookup, first (most recent) binding wins. -/
def lookupAttr : List (String × ℕ) → String → Option ℕ
  | [], _ => none
  | (k, v) :: rest, name => if k = name then some v else lookupAttr rest name

/-- The value produced by an attribute access: either a value from the
instance `__dict__`, or an attribute (e.g. a bound method) found on the
class. -/
inductive PyVal where
  | instanceAttr (v : ℕ)
  | classAttr (cls : String) (name : String)
deriving DecidableEq, Repr

/-- The attribute names the `BoundRendererArtist` class itself defines
(its methods), plus the attributes every object inherits.  The class
defines no `__slots__`, no properties and no other data descriptors. -/
def braClassAttrs : List String :=
  ["__init__", "__getattribute__", "__setattr__", "draw", "__class__",
   "__dict__", "__doc__", "__module__"]

/-- `object.__getattribute__(o, name)` for a class without data
descriptors: the instance `__dict__` is consulted, then the class
attributes; otherwise `AttributeError` (here: `none`). -/
def objectGetattribute (cls : String) (classAttrs : List String)
    (o : PyObj) (name : String) : Option PyVal :=
  match lookupAttr o.dict name with
  | some v => some (.instanceAttr v)
  | none => if name ∈ classAttrs then some (.classAttr cls name) else none

/-- `object.__setattr__(o, name, value)` on a `BoundRendererArtist`
instance: the class declares no `__slots__` and no data descriptors, so
the assignment always succeeds by writing into the instance `__dict__`;
it can never raise `AttributeError`. -/
def objectSetattr (o : PyObj) (name : String) (v : ℕ) : PyObj :=
  { o with dict := (name, v) :: o.dict }

/-- A `BoundRendererArtist` instance together with the wrapped artist
object its `_artist` slot refers to. -/
structure BRAInstance where
  self : PyObj
  artist : PyObj
  artistClass : String
  artistClassAttrs : List String
deriving DecidableEq, Repr

namespace BoundRendererArtist

/-- `BoundRendererArtist.__getattribute__(self, item)` (lines 16-20):
`try: return super().__getattribute__(item)`; on `AttributeError`,
`return self._artist.__getattribute__(item)` (which may itself raise —
then `none`). -/
def getattribute (b : BRAInstance) (name : String) : Option PyVal :=
  match objectGetattribute "BoundRendererArtist" braClassAttrs b.self name with
  | some v => some v
  | none => objectGetattribute b.artistClass b.artistClassAttrs b.artist name

/-- `BoundRendererArtist.__setattr__(self, key, value)` (lines 22-26):
`try: super().__setattr__(key, value)`; on `AttributeError`,
`self._artist.__setattr__(key, value)`.  Since `object.__setattr__` on
this class always succeeds (see `objectSetattr`), the `except` branch is
unreachable and the write always lands on the proxy itself. -/
def setattr (b : BRAInstance) (name : String) (v : ℕ) : BRAInstance :=
  { b with self := objectSetattr b.self name v }

end BoundRendererArtist

/-- The assignment behaviour claim C9 describes, in the claim's own
words: for an attribute name not explicitly defined on the proxy,
assignment sets that attribute on the wrapped drawable (only explicitly
defined names land on the proxy itself).  Compared against
`BoundRendererArtist.setattr`, the behaviour of the source. -/
def setattrPerClaim (b : BRAInstance) (name : String) (v : ℕ) : BRAInstance :=
  if (lookupAttr b.self.dict name).isSome ∨ name ∈ braClassAttrs then
    { b with self := objectSetattr b.self name v }
  else
    { b with artist := objectSetattr b.artist name v }

/-! ## Projections of `get_children` output used by the theorems -/

/-- The artist identifiers of the native (non-proxy) entries. -/
def nativeIds : List ChildEnt → List ℕ
  | [] => []
  | ChildEnt.native i :: r => i :: nativeIds r
  | ChildEnt.proxy _ _ _ :: r => nativeIds r

/-- The artist identifiers wrapped by the proxy entries. -/
def proxiedIds : List ChildEnt → List ℕ
  | [] => []
  | ChildEnt.native _ :: r => proxiedIds r
  | ChildEnt.proxy i _ _ :: r => i :: proxiedIds r

/-- The clip boxes carried by the proxy entries. -/
def proxyClips : List ChildEnt → List Bbox
  | [] => []
  | ChildEnt.native _ :: r => proxyClips r
  | ChildEnt.proxy _ _ cb :: r => cb :: proxyClips r

/-- The clip rectangle as claim C7 words it: the bounding box of the view
axes' current x/y limits, as a rectangle in data coordinates (the view's
and the source's shared data space), not further transformed. -/
def claimC7ClipBox (a : AxesObj) : Bbox :=
  Bbox.from_extents a.xlim.1 a.ylim.1 a.xlim.2 a.ylim.2

/-- Concrete input for claim C1: an artist whose window extent under the
substitute renderer is `(0,0)-(2,2)`, whose `draw` raises, wrapped with a
clip region that intersects that extent. -/
def artC1 : ArtistBehavior :=
  { window_extent := fun _ => .ok ⟨0, 0, 2, 2⟩
    draw_result := fun _ => .error "draw raised" }

/-- The C1 proxy: bound renderer `3`, clip region `(0,0)-(2,2)`. -/
def braC1 : BoundRendererArtist :=
  { artist := artC1, renderer := 3, clip_box := ⟨0, 0, 2, 2⟩ }

/-- The C1 wrapped artist's entry state: original clip box `(0,0)-(1,1)`. -/
def stC1 : ArtistState := { clip_box := some ⟨0, 0, 1, 1⟩ }

/-- A concrete source axes: two artist children (`10`, `11`) and two
nested child axes, one of which (`0`) is the view axes itself (the view is
an inset of its own source, the degenerate self-view configuration). -/
def srcA : SourceAxes :=
  { children := [10, 11]
    child_axes := [0, 12]
    transData := fun p => p
    xlim := (0, 9)
    ylim := (0, 9) }

/-- A concrete view axes bound to `srcA`, fresh from `_init_vars` except
that a renderer is active (`__renderer = 7`), as during a draw pass. -/
def axA : AxesObj :=
  { cls := "ViewAxes"
    self_id := 0
    native_children := [1, 2]
    xlim := (1, 5)
    ylim := (1, 5)
    transData := fun p => p
    view_axes := srcA
    image_interpolation := "nearest"
    render_depth := 0
    scale_lines := true
    renderer := some 7 }

/-- `axA` outside any draw pass: `__renderer = None`. -/
def axAoff : AxesObj := { axA with renderer := none }

/-- `axA` with its recursion counter at the limit `MAX_RENDER_DEPTH`. -/
def axDeep : AxesObj := { axAoff with render_depth := 5 }

/-- Concrete source axes for claim C7 whose `transData` is a non-identity
affine map (doubling both coordinates), exposing in which coordinate
space the proxies' clip rectangle lives. -/
def src7 : SourceAxes :=
  { children := [4]
    child_axes := []
    transData := fun p => (2 * p.1, 2 * p.2)
    xlim := (0, 9)
    ylim := (0, 9) }

/-- Concrete view axes for claim C7: limits `[1,5] x [1,5]`, bound to
`src7`, renderer active. -/
def ax7 : AxesObj := { axA with view_axes := src7 }

/-- Concrete well-behaved artist for the C5 witness: window extent
`(0,0)-(2,2)` under any renderer, `draw` succeeds. -/
def artOk : ArtistBehavior :=
  { window_extent := fun _ => .ok ⟨0, 0, 2, 2⟩
    draw_result := fun _ => .ok () }

/-- Concrete C5 proxy: bound renderer `3`, clip region `(1,1)-(3,3)`,
which intersects the artist's window extent. -/
def braOk : BoundRendererArtist :=
  { artist := artOk, renderer := 3, clip_box := ⟨1, 1, 3, 3⟩ }

/-- Concrete `BoundRendererArtist` instance for claim C9: the proxy's
`__dict__` holds the three slots written by `__init__`; the wrapped
artist (a line) has one instance attribute and the usual drawing
methods on its class. -/
def braPy : BRAInstance :=
  { self := ⟨[("_artist", 0), ("_renderer", 1), ("_clip_box", 2)]⟩
    artist := ⟨[("zorder", 5)]⟩
    artistClass := "Line2D"
    artistClassAttrs :=
      ["draw", "get_clip_box", "set_clip_box", "get_window_extent",
       "__class__", "__dict__"] }

/-! ## Theorems -/

/-- `Bbox.intersection` returns `None` exactly when the boxes fail the
non-strict axis-aligned overlap test. -/
lemma intersection_eq_none_iff (b1 b2 : Bbox) :
    Bbox.intersection b1 b2 = none ↔
      ¬(max b1.xmin b2.xmin ≤ min b1.xmax b2.xmax ∧
        max b1.ymin b2.ymin ≤ min b1.ymax b2.ymax) := by
  by_cases h : (max b1.xmin b2.xmin ≤ min b1.xmax b2.xmax ∧
      max b1.ymin b2.ymin ≤ min b1.ymax b2.ymax)
  · simp [Bbox.intersection, h]
  · simp [Bbox.intersection, h]

/-- C10: `BoundRendererArtist.draw(renderer)` never uses the renderer
argument passed to it by the host draw loop: for any two renderer
arguments the call produces identical final clip state, trace and error,
because both the extent query and the delegated draw use only the bound
substitute renderer. -/
theorem bound_artist_draw_ignores_passed_renderer
    (b : BoundRendererArtist) (st : ArtistState) (r1 r2 : ℕ) :
    BoundRendererArtist.draw b st r1 = BoundRendererArtist.draw b st r2 := rfl

/-- C1 (code bug): when the delegated `wrappedDrawable.draw` raises, the
clip box is NOT restored — `BoundRendererArtist.draw` has no
`try`/`finally`, so the exception propagates with the artist's clip box
left overwritten by its full window extent, contradicting the claimed
restoration on every exit path. -/
theorem clip_box_not_restored_when_draw_raises :
    (BoundRendererArtist.draw braC1 stC1 99).error = some "draw raised" ∧
    (BoundRendererArtist.draw braC1 stC1 99).final_clip = some ⟨0, 0, 2, 2⟩ ∧
    (BoundRendererArtist.draw braC1 stC1 99).final_clip ≠ stC1.clip_box := by
  decide

/-- C8: both the constructor and `from_axes` bind the given source, set
line scaling to `True`, default the interpolation mode to `"nearest"`,
reset the render depth to 0, and leave the axes' own view limits
untouched (nothing is copied from the source); `from_axes` converts the
given axes object in place — its identity, children, limits and
transform are preserved, only the class tag and the `_init_vars` fields
change — and an explicit interpolation argument is honoured. -/
theorem ctor_from_axes_bind_and_defaults
    (base axes : AxesObj) (src : SourceAxes) (interp : String) :
    (ViewAxesImpl.ctor base src none).view_axes = src ∧
    (ViewAxesImpl.ctor base src none).scale_lines = true ∧
    (ViewAxesImpl.ctor base src none).image_interpolation = "nearest" ∧
    (ViewAxesImpl.ctor base src none).render_depth = 0 ∧
    (ViewAxesImpl.ctor base src none).xlim = base.xlim ∧
    (ViewAxesImpl.ctor base src none).ylim = base.ylim ∧
    (ViewAxesImpl.from_axes axes src none).view_axes = src ∧
    (ViewAxesImpl.from_axes axes src none).scale_lines = true ∧
    (ViewAxesImpl.from_axes axes src none).image_interpolation = "nearest" ∧
    (ViewAxesImpl.from_axes axes src none).render_depth = 0 ∧
    (ViewAxesImpl.from_axes axes src none).cls = "ViewAxes" ∧
    (ViewAxesImpl.from_axes axes src none).self_id = axes.self_id ∧
    (ViewAxesImpl.from_axes axes src none).native_children = axes.native_children ∧
    (ViewAxesImpl.from_axes axes src none).xlim = axes.xlim ∧
    (ViewAxesImpl.from_axes axes src none).ylim = axes.ylim ∧
    (ViewAxesImpl.from_axes axes src none).transData = axes.transData ∧
    (ViewAxesImpl.from_axes axes src (some interp)).image_interpolation = interp :=
  ⟨rfl, rfl, rfl, rfl, rfl, rfl, rfl, rfl, rfl, rfl, rfl, rfl, rfl, rfl, rfl,
   rfl, rfl⟩

/-- C4 (code bug): `ViewAxesImpl.draw` has no `try`/`finally` around
`super().draw(renderer)`, so when the native draw raises, the exception
propagates with `__renderer` still set and `_render_depth` still
incremented — the claimed restoration on abnormal exit paths does not
happen. -/
theorem renderer_and_depth_leak_when_super_draw_raises :
    (ViewAxesImpl.draw (fun _ => .error "super draw raised") 7 axAoff).2.2 =
      some "super draw raised" ∧
    (ViewAxesImpl.draw (fun _ => .error "super draw raised") 7 axAoff).1.renderer =
      some 7 ∧
    (ViewAxesImpl.draw (fun _ => .error "super draw raised") 7 axAoff).1.render_depth
      = 1 ∧
    axAoff.renderer = none ∧ axAoff.render_depth = 0 :=
  ⟨rfl, rfl, rfl, rfl, rfl⟩

/-- C9 counterexample: assigning an attribute name not defined on the
proxy does NOT set it on the wrapped drawable — `object.__setattr__`
always succeeds on this class, so the write lands on the proxy itself and
the wrapped artist is untouched, contrary to the claim's forwarding
behaviour. -/
theorem setattr_does_not_forward_counterexample :
    BoundRendererArtist.setattr braPy "linewidth" 7 ≠
      setattrPerClaim braPy "linewidth" 7 ∧
    (BoundRendererArtist.setattr braPy "linewidth" 7).artist = braPy.artist ∧
    (setattrPerClaim braPy "linewidth" 7).artist ≠ braPy.artist := by
  decide

/-- C9 amended: attribute ACCESS for a name not present in the proxy's
instance dictionary nor on its class transparently forwards to the
wrapped drawable; attribute ASSIGNMENT, however, never forwards — since
`BoundRendererArtist` declares no slots or data descriptors,
`object.__setattr__` always succeeds, so every assignment writes to the
proxy's own instance dictionary and leaves the wrapped drawable
unchanged. -/
theorem getattr_forwards_setattr_stays_local
    (b : BRAInstance) (name : String) (v : ℕ)
    (h1 : lookupAttr b.self.dict name = none)
    (h2 : name ∉ braClassAttrs) :
    BoundRendererArtist.getattribute b name =
      objectGetattribute b.artistClass b.artistClassAttrs b.artist name ∧
    BoundRendererArtist.setattr b name v =
      { b with self := objectSetattr b.self name v } ∧
    (BoundRendererArtist.setattr b name v).artist = b.artist := by
  refine ⟨?_, rfl, rfl⟩
  simp [BoundRendererArtist.getattribute, objectGetattribute, h1, h2]

/-- Witness for the C9 amended theorem at the concrete instance `braPy`
and the attribute name `"linewidth"`. -/
theorem getattr_forwards_setattr_stays_local_witness :
    lookupAttr braPy.self.dict "linewidth" = none ∧
    "linewidth" ∉ braClassAttrs ∧
    (BoundRendererArtist.getattribute braPy "linewidth" =
        objectGetattribute braPy.artistClass braPy.artistClassAttrs braPy.artist
          "linewidth" ∧
      BoundRendererArtist.setattr braPy "linewidth" 7 =
        { braPy with self := objectSetattr braPy.self "linewidth" 7 } ∧
      (BoundRendererArtist.setattr braPy "linewidth" 7).artist = braPy.artist) :=
  ⟨by decide, by decide,
   getattr_forwards_setattr_stays_local braPy "linewidth" 7 (by decide) (by decide)⟩

/-- C5: `BoundRendererArtist.draw` first replaces the wrapped artist's
clip box with its full window extent under the substitute renderer, then
delegates `artist.draw(self._renderer)` if and only if that extent and
the proxy's clip region intersect or touch (`Bbox.intersection` is
non-`None`, equivalently the non-strict overlap test holds); when the
rectangles are disjoint no draw call on the wrapped artist happens at
all, and every delegated call uses the substitute renderer. -/
theorem draw_delegates_iff_boxes_touch
    (b : BoundRendererArtist) (st : ArtistState) (r : ℕ) (fe : Bbox)
    (hw : b.artist.window_extent b.renderer = .ok fe)
    (hd : b.artist.draw_result b.renderer = .ok ()) :
    (BoundRendererArtist.draw b st r).error = none ∧
    (Bbox.intersection fe b.clip_box ≠ none ↔
      (max fe.xmin b.clip_box.xmin ≤ min fe.xmax b.clip_box.xmax ∧
        max fe.ymin b.clip_box.ymin ≤ min fe.ymax b.clip_box.ymax)) ∧
    (Bbox.intersection fe b.clip_box ≠ none →
      (BoundRendererArtist.draw b st r).trace =
        [Ev.setClip (some fe), Ev.drawCall b.renderer, Ev.setClip st.clip_box]) ∧
    (Bbox.intersection fe b.clip_box = none →
      (BoundRendererArtist.draw b st r).trace =
        [Ev.setClip (some fe), Ev.setClip st.clip_box]) ∧
    ((∃ r2, Ev.drawCall r2 ∈ (BoundRendererArtist.draw b st r).trace) ↔
      Bbox.intersection fe b.clip_box ≠ none) ∧
    (∀ r2, Ev.drawCall r2 ∈ (BoundRendererArtist.draw b st r).trace →
      r2 = b.renderer) := by
  have hiff := intersection_eq_none_iff fe b.clip_box
  have harith : Bbox.intersection fe b.clip_box ≠ none ↔
      (max fe.xmin b.clip_box.xmin ≤ min fe.xmax b.clip_box.xmax ∧
        max fe.ymin b.clip_box.ymin ≤ min fe.ymax b.clip_box.ymax) := by
    simp only [ne_eq, hiff, not_not]
  by_cases hI : (Bbox.intersection fe b.clip_box).isSome
  · have hne : Bbox.intersection fe b.clip_box ≠ none :=
      Option.isSome_iff_ne_none.mp hI
    have htr : (BoundRendererArtist.draw b st r).trace =
        [Ev.setClip (some fe), Ev.drawCall b.renderer, Ev.setClip st.clip_box] := by
      simp [BoundRendererArtist.draw, hw, hd, hI]
    have herr : (BoundRendererArtist.draw b st r).error = none := by
      simp [BoundRendererArtist.draw, hw, hd, hI]
    refine ⟨herr, harith, fun _ => htr, fun h => absurd h hne, ?_, ?_⟩
    · constructor
      · intro _
        exact hne
      · intro _
        refine ⟨b.renderer, ?_⟩
        rw [htr]
        simp
    · intro r2 hmem
      rw [htr] at hmem
      simp at hmem
      exact hmem
  · have h0 : Bbox.intersection fe b.clip_box = none :=
      Option.not_isSome_iff_eq_none.mp hI
    have htr : (BoundRendererArtist.draw b st r).trace =
        [Ev.setClip (some fe), Ev.setClip st.clip_box] := by
      simp [BoundRendererArtist.draw, hw, h0]
    have herr : (BoundRendererArtist.draw b st r).error = none := by
      simp [BoundRendererArtist.draw, hw, h0]
    refine ⟨herr, harith, fun h => absurd h0 h, fun _ => htr, ?_, ?_⟩
    · constructor
      · rintro ⟨r2, hm⟩
        rw [htr] at hm
        simp at hm
      · intro h
        exact absurd h0 h
    · intro r2 hm
      rw [htr] at hm
      simp at hm

/-- Witness for C5 at the concrete proxy `braOk` (window extent
`(0,0)-(2,2)`, clip region `(1,1)-(3,3)`, which touch). -/
theorem draw_delegates_iff_boxes_touch_witness :
    braOk.artist.window_extent braOk.renderer = .ok ⟨0, 0, 2, 2⟩ ∧
    braOk.artist.draw_result braOk.renderer = .ok () ∧
    (BoundRendererArtist.draw braOk stC1 99).error = none ∧
    (BoundRendererArtist.draw braOk stC1 99).trace =
      [Ev.setClip (some ⟨0, 0, 2, 2⟩), Ev.drawCall 3, Ev.setClip stC1.clip_box] := by
  have h := draw_delegates_iff_boxes_touch braOk stC1 99 ⟨0, 0, 2, 2⟩ rfl rfl
  exact ⟨rfl, rfl, h.1, h.2.2.1 (by decide)⟩

/-- `nativeIds` of a list of native entries. -/
lemma nativeIds_map_native (l : List ℕ) :
    nativeIds (l.map ChildEnt.native) = l := by
  induction l with
  | nil => rfl
  | cons x xs ih => simp [nativeIds, ih]

/-- `nativeIds` distributes over append. -/
lemma nativeIds_append (l1 l2 : List ChildEnt) :
    nativeIds (l1 ++ l2) = nativeIds l1 ++ nativeIds l2 := by
  induction l1 with
  | nil => rfl
  | cons x xs ih => cases x <;> simp [nativeIds, ih]

/-- A list of proxy entries contributes no native identifiers. -/
lemma nativeIds_map_proxy (l : List ℕ) (mock : MockRenderer) (cb : Bbox) :
    nativeIds (l.map fun c => ChildEnt.proxy c mock cb) = [] := by
  induction l with
  | nil => rfl
  | cons x xs ih => simp [nativeIds, ih]

/-- A list of native entries contributes no proxied identifiers. -/
lemma proxiedIds_map_native (l : List ℕ) :
    proxiedIds (l.map ChildEnt.native) = [] := by
  induction l with
  | nil => rfl
  | cons x xs ih => simp [proxiedIds, ih]

/-- `proxiedIds` distributes over append. -/
lemma proxiedIds_append (l1 l2 : List ChildEnt) :
    proxiedIds (l1 ++ l2) = proxiedIds l1 ++ proxiedIds l2 := by
  induction l1 with
  | nil => rfl
  | cons x xs ih => cases x <;> simp [proxiedIds, ih]

/-- `proxiedIds` of a uniformly wrapped list is the list itself. -/
lemma proxiedIds_map_proxy (l : List ℕ) (mock : MockRenderer) (cb : Bbox) :
    proxiedIds (l.map fun c => ChildEnt.proxy c mock cb) = l := by
  induction l with
  | nil => rfl
  | cons x xs ih => simp [proxiedIds, ih]

/-- Native entries carry no clip boxes. -/
lemma proxyClips_map_native (l : List ℕ) :
    proxyClips (l.map ChildEnt.native) = [] := by
  induction l with
  | nil => rfl
  | cons x xs ih => simp [proxyClips, ih]

/-- `proxyClips` distributes over append. -/
lemma proxyClips_append (l1 l2 : List ChildEnt) :
    proxyClips (l1 ++ l2) = proxyClips l1 ++ proxyClips l2 := by
  induction l1 with
  | nil => rfl
  | cons x xs ih => cases x <;> simp [proxyClips, ih]

/-- Every proxy in a uniformly wrapped list carries the same clip box. -/
lemma proxyClips_map_proxy (l : List ℕ) (mock : MockRenderer) (cb : Bbox) :
    proxyClips (l.map fun c => ChildEnt.proxy c mock cb) =
      List.replicate l.length cb := by
  induction l with
  | nil => rfl
  | cons x xs ih => simp [proxyClips, ih, List.replicate_succ]

/-- C6: `get_children` returns exactly the view's own native children
plus, only while `__renderer` is set, one proxy per child of the source
axes — its direct artist children followed by its nested child axes —
with the view axes itself always filtered out; with no active renderer
the native children come back alone, and in no case does the view's own
identity appear among the proxied children. -/
theorem get_children_native_plus_proxies (a : AxesObj) :
    (a.renderer = none →
      ViewAxesImpl.get_children a = a.native_children.map ChildEnt.native) ∧
    (∀ rend, a.renderer = some rend →
      nativeIds (ViewAxesImpl.get_children a) = a.native_children ∧
      proxiedIds (ViewAxesImpl.get_children a) =
        (a.view_axes.children ++ a.view_axes.child_axes).filter
          (fun c => c ≠ a.self_id)) ∧
    a.self_id ∉ proxiedIds (ViewAxesImpl.get_children a) := by
  refine ⟨?_, ?_, ?_⟩
  · intro h
    simp [ViewAxesImpl.get_children, h]
  · intro rend h
    constructor
    · simp [ViewAxesImpl.get_children, h, nativeIds_append, nativeIds_map_native,
        nativeIds_map_proxy]
    · simp [ViewAxesImpl.get_children, h, proxiedIds_append, proxiedIds_map_native,
        proxiedIds_map_proxy]
  · cases h : a.renderer with
    | none =>
        simp [ViewAxesImpl.get_children, h, proxiedIds_map_native]
    | some rend =>
        simp only [ViewAxesImpl.get_children, h, proxiedIds_append,
          proxiedIds_map_native, proxiedIds_map_proxy, List.nil_append]
        intro hmem
        have := List.of_mem_filter hmem
        simp at this

/-- Witness for C6 at the concrete view `axA` (renderer active; the
source's children are `[10, 11]` and its child axes `[0, 12]`, `0` being
the view itself) and at `axAoff` (no renderer active). -/
theorem get_children_native_plus_proxies_witness :
    axAoff.renderer = none ∧
    axA.renderer = some 7 ∧
    ViewAxesImpl.get_children axAoff = axAoff.native_children.map ChildEnt.native ∧
    proxiedIds (ViewAxesImpl.get_children axA) = [10, 11, 12] ∧
    axA.self_id ∉ proxiedIds (ViewAxesImpl.get_children axA) := by
  have h1 := (get_children_native_plus_proxies axAoff).1 rfl
  have h2 := ((get_children_native_plus_proxies axA).2.1 7 rfl).2
  have h3 := (get_children_native_plus_proxies axA).2.2
  refine ⟨rfl, rfl, h1, ?_, h3⟩
  rw [h2]
  decide

/-- C7 counterexample: with a source whose `transData` doubles both
coordinates and a view with limits `[1,5] x [1,5]`, the clip rectangle
handed to the proxy is `(2,2)-(10,10)` — the limits box mapped through
`transData` into source display space — which differs from the claim's
"bounding box of the view's x/y limits in source-canvas data
coordinates", `(1,1)-(5,5)`. -/
theorem clip_box_not_in_data_coordinates :
    proxyClips (ViewAxesImpl.get_children ax7) = [⟨2, 2, 10, 10⟩] ∧
    claimC7ClipBox ax7 = ⟨1, 1, 5, 5⟩ ∧
    (⟨2, 2, 10, 10⟩ : Bbox) ≠ claimC7ClipBox ax7 := by
  refine ⟨?_, rfl, ?_⟩
  · simp only [ViewAxesImpl.get_children, ax7, axA, src7, ViewAxesImpl.viewClipBox,
      Bbox.from_extents, Bbox.transformed, proxyClips_append, proxyClips_map_native,
      proxyClips_map_proxy]
    norm_num [proxyClips, Bbox.mk.injEq]
  · simp [claimC7ClipBox, ax7, axA, Bbox.from_extents, Bbox.mk.injEq]

/-- C7 amended: the clip rectangle passed to every proxy built by
`get_children` is the bounding box of the view's current x/y limits
mapped through the source axes' `transData` (its data-to-display
transform) — i.e. expressed in source-canvas display coordinates —
so it is comparable with the display-space window extents used in each
proxy's intersection test. -/
theorem proxy_clip_is_limits_box_through_transData
    (a : AxesObj) (rend : ℕ) (h : a.renderer = some rend) :
    proxyClips (ViewAxesImpl.get_children a) =
      List.replicate
        (((a.view_axes.children ++ a.view_axes.child_axes).filter
            (fun c => c ≠ a.self_id)).length)
        ((Bbox.from_extents a.xlim.1 a.ylim.1 a.xlim.2 a.ylim.2).transformed
          a.view_axes.transData) := by
  simp [ViewAxesImpl.get_children, h, proxyClips_append, proxyClips_map_native,
    proxyClips_map_proxy, ViewAxesImpl.viewClipBox]

/-- Witness for the C7 amended theorem at the concrete view `ax7`. -/
theorem proxy_clip_is_limits_box_through_transData_witness :
    ax7.renderer = some 7 ∧
    proxyClips (ViewAxesImpl.get_children ax7) =
      List.replicate 1
        ((Bbox.from_extents 1 1 5 5).transformed src7.transData) :=
  ⟨rfl, proxy_clip_is_limits_box_through_transData ax7 7 rfl⟩

/-- C3: the render-depth invariant of one `ViewAxesImpl.draw` call:
`_init_vars` starts the counter at 0; a draw entered with the counter at
`MAX_RENDER_DEPTH` (= 5) or beyond returns immediately, a silent no-op
that calls nothing and changes no state; below the limit the single
native draw runs at the counter incremented by one, a normal return
restores the entry value, and in every case a counter within
`[0, MAX_RENDER_DEPTH]` stays within those bounds (it is a `Nat`, so
`0 ≤ _render_depth` holds by type). -/
theorem render_depth_invariant
    (a0 : AxesObj) (src : SourceAxes) (interp : Option String)
    (superDraw : ℕ → Except String Unit) (r : ℕ) (a : AxesObj) :
    (ViewAxesImpl.init_vars a0 src interp).render_depth = 0 ∧
    (ViewAxesImpl.MAX_RENDER_DEPTH ≤ a.render_depth →
      ViewAxesImpl.draw superDraw r a = (a, [], none)) ∧
    (a.render_depth ≤ ViewAxesImpl.MAX_RENDER_DEPTH →
      (ViewAxesImpl.draw superDraw r a).1.render_depth ≤
        ViewAxesImpl.MAX_RENDER_DEPTH ∧
      ∀ a1 ∈ (ViewAxesImpl.draw superDraw r a).2.1,
        a1.render_depth ≤ ViewAxesImpl.MAX_RENDER_DEPTH) ∧
    (a.render_depth < ViewAxesImpl.MAX_RENDER_DEPTH →
      (ViewAxesImpl.draw superDraw r a).2.1 =
        [{ a with render_depth := a.render_depth + 1, renderer := some r }] ∧
      (superDraw r = .ok () →
        (ViewAxesImpl.draw superDraw r a).1.render_depth = a.render_depth)) := by
  refine ⟨rfl, ?_, ?_, ?_⟩
  · intro h
    simp [ViewAxesImpl.draw, h]
  · intro h
    by_cases hlim : ViewAxesImpl.MAX_RENDER_DEPTH ≤ a.render_depth
    · constructor
      · simp [ViewAxesImpl.draw, hlim, h]
      · simp [ViewAxesImpl.draw, hlim]
    · have hlt : a.render_depth < ViewAxesImpl.MAX_RENDER_DEPTH :=
        Nat.lt_of_not_le hlim
      cases hsd : superDraw r with
      | error e =>
          constructor
          · simp [ViewAxesImpl.draw, hlim, hsd]
            omega
          · simp [ViewAxesImpl.draw, hlim, hsd]
            omega
      | ok u =>
          constructor
          · simp [ViewAxesImpl.draw, hlim, hsd]
            omega
          · simp [ViewAxesImpl.draw, hlim, hsd]
            omega
  · intro hlt
    have hlim : ¬ ViewAxesImpl.MAX_RENDER_DEPTH ≤ a.render_depth :=
      Nat.not_le.mpr hlt
    constructor
    · cases hsd : superDraw r with
      | error e => simp [ViewAxesImpl.draw, hlim, hsd]
      | ok u => simp [ViewAxesImpl.draw, hlim, hsd]
    · intro hok
      simp [ViewAxesImpl.draw, hlim, hok]

/-- Witness for C3: the no-op branch at `axDeep` (counter at the limit)
and the increment/decrement branch at `axAoff` (counter 0). -/
theorem render_depth_invariant_witness :
    ViewAxesImpl.MAX_RENDER_DEPTH ≤ axDeep.render_depth ∧
    ViewAxesImpl.draw (fun _ => .ok ()) 7 axDeep = (axDeep, [], none) ∧
    axAoff.render_depth < ViewAxesImpl.MAX_RENDER_DEPTH ∧
    (ViewAxesImpl.draw (fun _ => .ok ()) 7 axAoff).1.render_depth =
      axAoff.render_depth := by
  have h1 := (render_depth_invariant axAoff srcA none (fun _ => .ok ()) 7
    axDeep).2.1 (by decide)
  have h2 := ((render_depth_invariant axAoff srcA none (fun _ => .ok ()) 7
    axAoff).2.2.2 (by decide)).2 rfl
  exact ⟨by decide, h1, by decide, h2⟩

/-- The largest counter is bounded when every counter is. -/
lemma maxAll_le {n : ℕ} {s : Fin n → ℕ} {m : ℕ} (h : ∀ j, s j ≤ m) :
    ViewAxesImpl.maxAll s ≤ m :=
  Finset.sup_le fun j _ => h j

/-- Incrementing one unsaturated counter decreases the total remaining
capacity by exactly one. -/
lemma capacity_update {n : ℕ} (s : Fin n → ℕ) (i : Fin n)
    (h : s i < ViewAxesImpl.MAX_RENDER_DEPTH) :
    ViewAxesImpl.capacity (Function.update s i (s i + 1)) + 1 =
      ViewAxesImpl.capacity s := by
  unfold ViewAxesImpl.capacity
  have key : ∀ t : Fin n → ℕ,
      ∑ j, (ViewAxesImpl.MAX_RENDER_DEPTH - t j) =
        (ViewAxesImpl.MAX_RENDER_DEPTH - t i) +
          ∑ j in Finset.univ.erase i, (ViewAxesImpl.MAX_RENDER_DEPTH - t j) :=
    fun t => (Finset.add_sum_erase _ _ (Finset.mem_univ i)).symm
  rw [key (Function.update s i (s i + 1)), key s, Function.update_same]
  have hrest : ∑ j in Finset.univ.erase i,
      (ViewAxesImpl.MAX_RENDER_DEPTH - Function.update s i (s i + 1) j) =
        ∑ j in Finset.univ.erase i, (ViewAxesImpl.MAX_RENDER_DEPTH - s j) :=
    Finset.sum_congr rfl fun j hj => by
      rw [Function.update_noteq (Finset.ne_of_mem_erase hj)]
  rw [hrest]
  omega

/-- Incrementing a counter and then decrementing it restores the state
vector exactly. -/
lemma update_incr_decr {n : ℕ} (s : Fin n → ℕ) (i : Fin n) :
    Function.update (Function.update s i (s i + 1)) i
      (Function.update s i (s i + 1) i - 1) = s := by
  rw [Function.update_same, Nat.add_sub_cancel, Function.update_idem,
    Function.update_eq_self]

/-- Totality and state restoration of the draw recursion: from any
counter vector bounded by `MAX_RENDER_DEPTH` and with fuel exceeding the
remaining capacity, `drawRec` succeeds, returns the initial counter
vector unchanged, and every counter value attained along the way stays
within `MAX_RENDER_DEPTH`. -/
lemma drawRec_total {n : ℕ} (viewsOf : Fin n → List (Fin n)) :
    ∀ fuel : ℕ,
      (∀ (i : Fin n) (s : Fin n → ℕ),
        (∀ j, s j ≤ ViewAxesImpl.MAX_RENDER_DEPTH) →
        ViewAxesImpl.capacity s < fuel →
        ∃ mx, ViewAxesImpl.drawRec viewsOf fuel (Sum.inl i) s = some (s, mx) ∧
          mx ≤ ViewAxesImpl.MAX_RENDER_DEPTH) ∧
      (∀ (l : List (Fin n)) (s : Fin n → ℕ),
        (∀ j, s j ≤ ViewAxesImpl.MAX_RENDER_DEPTH) →
        ViewAxesImpl.capacity s < fuel →
        ∃ mx, ViewAxesImpl.drawRec viewsOf fuel (Sum.inr l) s = some (s, mx) ∧
          mx ≤ ViewAxesImpl.MAX_RENDER_DEPTH) := by
  intro fuel
  induction fuel using Nat.strong_induction_on with
  | _ fuel IH =>
    have hA : ∀ (i : Fin n) (s : Fin n → ℕ),
        (∀ j, s j ≤ ViewAxesImpl.MAX_RENDER_DEPTH) →
        ViewAxesImpl.capacity s < fuel →
        ∃ mx, ViewAxesImpl.drawRec viewsOf fuel (Sum.inl i) s = some (s, mx) ∧
          mx ≤ ViewAxesImpl.MAX_RENDER_DEPTH := by
      intro i s hb hc
      obtain ⟨f, rfl⟩ : ∃ f, fuel = f + 1 := ⟨fuel - 1, by omega⟩
      by_cases hi : ViewAxesImpl.MAX_RENDER_DEPTH ≤ s i
      · refine ⟨ViewAxesImpl.maxAll s, ?_, maxAll_le hb⟩
        simp [ViewAxesImpl.drawRec, hi]
      · have hsi : s i < ViewAxesImpl.MAX_RENDER_DEPTH := Nat.lt_of_not_le hi
        have hb1 : ∀ j, Function.update s i (s i + 1) j ≤
            ViewAxesImpl.MAX_RENDER_DEPTH := by
          intro j
          rcases eq_or_ne j i with rfl | hne
          · rw [Function.update_same]
            omega
          · rw [Function.update_noteq hne]
            exact hb j
        have hcap := capacity_update s i hsi
        have hc1 : ViewAxesImpl.capacity (Function.update s i (s i + 1)) < f := by
          omega
        obtain ⟨mx, hmx, hle⟩ :=
          (IH f (by omega)).2 (viewsOf i) (Function.update s i (s i + 1)) hb1 hc1
        refine ⟨max (ViewAxesImpl.maxAll (Function.update s i (s i + 1))) mx, ?_, ?_⟩
        · simp only [ViewAxesImpl.drawRec, hi, if_false]
          rw [hmx]
          dsimp only
          rw [update_incr_decr]
        · exact Nat.max_le.mpr ⟨maxAll_le hb1, hle⟩
    refine ⟨hA, ?_⟩
    intro l
    induction l with
    | nil =>
        intro s hb _
        exact ⟨ViewAxesImpl.maxAll s, by simp [ViewAxesImpl.drawRec], maxAll_le hb⟩
    | cons c cs ihl =>
        intro s hb hc
        obtain ⟨mx1, h1, hle1⟩ := hA c s hb hc
        obtain ⟨mx2, h2, hle2⟩ := ihl s hb hc
        refine ⟨max mx1 mx2, ?_, Nat.max_le.mpr ⟨hle1, hle2⟩⟩
        simp [ViewAxesImpl.drawRec, h1, h2]

/-- C2: drawing any axes of any system of `n` mutually-referencing view
axes — in particular the two-cycle "A views B and B views A" — terminates:
the recursion completes within the static bound of
`MAX_RENDER_DEPTH * n` nested draw calls (the fuel is not exhausted), it
returns every `_render_depth` counter to 0, and no counter — i.e. no
per-axes draw recursion depth — ever exceeds `MAX_RENDER_DEPTH` (= 5) at
any point of the recursion. -/
theorem draw_terminates_within_depth_bound
    (n : ℕ) (viewsOf : Fin n → List (Fin n)) (i : Fin n) :
    ∃ mx, ViewAxesImpl.drawSystem viewsOf i = some ((fun _ => 0), mx) ∧
      mx ≤ ViewAxesImpl.MAX_RENDER_DEPTH := by
  have hb : ∀ j : Fin n, (fun _ : Fin n => 0) j ≤ ViewAxesImpl.MAX_RENDER_DEPTH :=
    fun _ => Nat.zero_le _
  have hc : ViewAxesImpl.capacity (fun _ : Fin n => 0) <
      ViewAxesImpl.MAX_RENDER_DEPTH * n + 1 := by
    simp only [ViewAxesImpl.capacity, ViewAxesImpl.MAX_RENDER_DEPTH, Nat.sub_zero,
      Finset.sum_const, Finset.card_univ, Fintype.card_fin, smul_eq_mul]
    omega
  exact (drawRec_total viewsOf (ViewAxesImpl.MAX_RENDER_DEPTH * n + 1)).1 i
    (fun _ => 0) hb hc

end Matplotview
